import Mathlib

/-!
Verification of the connector-orchestration core of `unstructured-ingest`
against its natural-language specification. The Python data model and the
operations under scrutiny are shallowly embedded: JSON documents become an
inductive `Json` type, dataclasses become structures, fallible operations
return `Except PyErr`, and stateful operations (downloads, network probes)
pass their state and record their effects explicitly. Every definition is
translated from the repository sources; the few pieces of repository code
that are not part of the provided sources (noted with `Modelled from the
spec:` in their doc comments) are reconstructed from the specification's
words.
-/

/-! ## JSON documents

Python-side JSON values (the output of `json.load` / the input of
`json.dump`). Objects and arrays are their own inductives so that all
recursion stays structural. Key order is kept, as Python dicts keep
insertion order. -/

mutual

inductive Json where
  | null
  | bool (b : Bool)
  | num (n : Int)
  | str (s : String)
  | arr (xs : Jsons)
  | obj (kvs : JsonKVs)

inductive Jsons where
  | nil
  | cons (hd : Json) (tl : Jsons)

inductive JsonKVs where
  | nil
  | cons (k : String) (v : Json) (tl : JsonKVs)

end

def JsonKVs.append : JsonKVs → JsonKVs → JsonKVs
  | .nil, ys => ys
  | .cons k v tl, ys => .cons k v (tl.append ys)

/-- Python `dict.get(key)` / `dict[key]`: first binding of `key`. JSON
objects produced by `json.load` have unique keys, so first-match agrees
with the Python dict. -/
def JsonKVs.lookup (kvs : JsonKVs) (key : String) : Option Json :=
  match kvs with
  | .nil => none
  | .cons k v tl => if key = k then some v else tl.lookup key

/-- Python `dict.pop(key, None)`: the object without the binding of `key`. -/
def JsonKVs.remove (kvs : JsonKVs) (key : String) : JsonKVs :=
  match kvs with
  | .nil => .nil
  | .cons k v tl => if key = k then tl.remove key else .cons k v (tl.remove key)

def Jsons.length : Jsons → Nat
  | .nil => 0
  | .cons _ tl => tl.length + 1

/-! ## Python-side errors

The exception classes the embedded operations can raise. `json.JSONDecodeError`
is a subclass of `ValueError` in CPython, which `isValueError` reflects;
`KeyError` subclasses `LookupError`, not `ValueError`. The three connector
error classes come from `unstructured_ingest.error`. -/

inductive PyErr where
  | keyError (k : String)
  | valueError (msg : String)
  | jsonDecodeError
  | typeError (msg : String)
  | osError (msg : String)
  | sourceConnectionError (msg : String)
  | sourceConnectionNetworkError (msg : String)
  | destinationConnectionError (msg : String)
  | writeError (msg : String)
  deriving DecidableEq, Repr

def PyErr.isValueError : PyErr → Bool
  | .valueError _ => true
  | .jsonDecodeError => true
  | _ => false

def PyErr.isSourceConnectionError : PyErr → Bool
  | .sourceConnectionError _ => true
  | _ => false

def PyErr.isDestinationConnectionError : PyErr → Bool
  | .destinationConnectionError _ => true
  | _ => false

/-! ## FileData (src/unstructured_ingest/v2/interfaces/file_data.py)

`SourceIdentifiers`, `FileDataSourceMetadata` and `FileData` are dataclasses
serialized through `dataclasses_json.DataClassJsonMixin`.
`FileDataSourceMetadata` extends `DataSourceMetadata` of the external
`unstructured` library (fields `url`, `version`, `record_locator`,
`date_created`, `date_modified`, `date_processed`, `permissions_data`, all
optional) with `filesize_bytes`. The `Literal["file", "batch"]` tag becomes
the enum `DocType`. -/

structure SourceIdentifiers where
  filename : String
  fullpath : String
  rel_path : Option String := none
  deriving DecidableEq, Repr

inductive DocType where
  | file
  | batch
  deriving DecidableEq, Repr

structure FileDataSourceMetadata where
  url : Option String := none
  version : Option String := none
  record_locator : Option JsonKVs := none
  date_created : Option String := none
  date_modified : Option String := none
  date_processed : Option String := none
  permissions_data : Option Jsons := none
  filesize_bytes : Option Int := none

structure FileData where
  identifier : String
  connector_type : String
  source_identifiers : Option SourceIdentifiers := none
  doc_type : DocType := .file
  metadata : FileDataSourceMetadata := {}
  additional_metadata : JsonKVs := .nil
  reprocess : Bool := false

/-- Derived property `SourceIdentifiers.relative_path`:
`self.rel_path or self.fullpath`. -/
def SourceIdentifiers.relative_path (si : SourceIdentifiers) : String :=
  match si.rel_path with
  | some p => p
  | none => si.fullpath

def encodeOptStr : Option String → Json
  | none => .null
  | some s => .str s

def encodeOptInt : Option Int → Json
  | none => .null
  | some n => .num n

def encodeOptObj : Option JsonKVs → Json
  | none => .null
  | some kvs => .obj kvs

def encodeOptArr : Option Jsons → Json
  | none => .null
  | some xs => .arr xs

def DocType.toStr : DocType → String
  | .file => "file"
  | .batch => "batch"

def SourceIdentifiers.to_dict (si : SourceIdentifiers) : JsonKVs :=
  .cons "filename" (.str si.filename)
    (.cons "fullpath" (.str si.fullpath)
      (.cons "rel_path" (encodeOptStr si.rel_path) .nil))

def FileDataSourceMetadata.to_dict (m : FileDataSourceMetadata) : JsonKVs :=
  .cons "url" (encodeOptStr m.url)
    (.cons "version" (encodeOptStr m.version)
      (.cons "record_locator" (encodeOptObj m.record_locator)
        (.cons "date_created" (encodeOptStr m.date_created)
          (.cons "date_modified" (encodeOptStr m.date_modified)
            (.cons "date_processed" (encodeOptStr m.date_processed)
              (.cons "permissions_data" (encodeOptArr m.permissions_data)
                (.cons "filesize_bytes" (encodeOptInt m.filesize_bytes) .nil)))))))

def encodeOptSourceIdentifiers : Option SourceIdentifiers → Json
  | none => .null
  | some si => .obj si.to_dict

/-- Serialization of `FileData` (`DataClassJsonMixin.to_dict`): one flat JSON
object, fields in dataclass order, nested dataclasses as nested objects,
`None` as `null`. -/
def FileData.to_dict (fd : FileData) : JsonKVs :=
  .cons "identifier" (.str fd.identifier)
    (.cons "connector_type" (.str fd.connector_type)
      (.cons "source_identifiers" (encodeOptSourceIdentifiers fd.source_identifiers)
        (.cons "doc_type" (.str fd.doc_type.toStr)
          (.cons "metadata" (.obj fd.metadata.to_dict)
            (.cons "additional_metadata" (.obj fd.additional_metadata)
              (.cons "reprocess" (.bool fd.reprocess) .nil))))))

def decodeStr : Json → Except PyErr String
  | .str s => .ok s
  | _ => .error (.typeError "str expected")

def decodeOptStr : Json → Except PyErr (Option String)
  | .null => .ok none
  | .str s => .ok (some s)
  | _ => .error (.typeError "str expected")

def decodeOptInt : Json → Except PyErr (Option Int)
  | .null => .ok none
  | .num n => .ok (some n)
  | _ => .error (.typeError "int expected")

def decodeOptObj : Json → Except PyErr (Option JsonKVs)
  | .null => .ok none
  | .obj kvs => .ok (some kvs)
  | _ => .error (.typeError "dict expected")

def decodeOptArr : Json → Except PyErr (Option Jsons)
  | .null => .ok none
  | .arr xs => .ok (some xs)
  | _ => .error (.typeError "list expected")

def decodeBool : Json → Except PyErr Bool
  | .bool b => .ok b
  | _ => .error (.typeError "bool expected")

def decodeDocType : Json → Except PyErr DocType
  | .str "file" => .ok .file
  | .str "batch" => .ok .batch
  | _ => .error (.typeError "file or batch expected")

/-- A required dataclass field: `dataclasses_json._decode_dataclass` reads it
with `kvs[field.name]`, so a missing key raises `KeyError`. -/
def requiredField (kvs : JsonKVs) (k : String) : Except PyErr Json :=
  match kvs.lookup k with
  | none => .error (.keyError k)
  | some v => .ok v

/-- An optional dataclass field: a missing key is replaced by the field's
declared default before decoding. -/
def fieldWithDefault (kvs : JsonKVs) (k : String) (dflt : α)
    (dec : Json → Except PyErr α) : Except PyErr α :=
  match kvs.lookup k with
  | none => .ok dflt
  | some v => dec v

def SourceIdentifiers.from_dict (kvs : JsonKVs) : Except PyErr SourceIdentifiers := do
  let filename ← decodeStr (← requiredField kvs "filename")
  let fullpath ← decodeStr (← requiredField kvs "fullpath")
  let rel_path ← fieldWithDefault kvs "rel_path" none decodeOptStr
  return { filename := filename, fullpath := fullpath, rel_path := rel_path }

def FileDataSourceMetadata.from_dict (kvs : JsonKVs) :
    Except PyErr FileDataSourceMetadata := do
  let url ← fieldWithDefault kvs "url" none decodeOptStr
  let version ← fieldWithDefault kvs "version" none decodeOptStr
  let record_locator ← fieldWithDefault kvs "record_locator" none decodeOptObj
  let date_created ← fieldWithDefault kvs "date_created" none decodeOptStr
  let date_modified ← fieldWithDefault kvs "date_modified" none decodeOptStr
  let date_processed ← fieldWithDefault kvs "date_processed" none decodeOptStr
  let permissions_data ← fieldWithDefault kvs "permissions_data" none decodeOptArr
  let filesize_bytes ← fieldWithDefault kvs "filesize_bytes" none decodeOptInt
  return { url := url, version := version, record_locator := record_locator,
           date_created := date_created, date_modified := date_modified,
           date_processed := date_processed, permissions_data := permissions_data,
           filesize_bytes := filesize_bytes }

def decodeOptSourceIdentifiers : Json → Except PyErr (Option SourceIdentifiers)
  | .null => .ok none
  | .obj kvs => (SourceIdentifiers.from_dict kvs).map some
  | _ => .error (.typeError "dict expected")

def decodeMetadata : Json → Except PyErr FileDataSourceMetadata
  | .obj kvs => FileDataSourceMetadata.from_dict kvs
  | _ => .error (.typeError "dict expected")

def decodeObj : Json → Except PyErr JsonKVs
  | .obj kvs => .ok kvs
  | _ => .error (.typeError "dict expected")

/-- Deserialization of `FileData` (`DataClassJsonMixin.from_dict` as
implemented by `dataclasses_json._decode_dataclass`): the two fields without
defaults, `identifier` and `connector_type`, raise `KeyError` when missing;
every other field falls back to its dataclass default. -/
def FileData.from_dict (kvs : JsonKVs) : Except PyErr FileData := do
  let identifier ← decodeStr (← requiredField kvs "identifier")
  let connector_type ← decodeStr (← requiredField kvs "connector_type")
  let source_identifiers ←
    fieldWithDefault kvs "source_identifiers" none decodeOptSourceIdentifiers
  let doc_type ← fieldWithDefault kvs "doc_type" .file decodeDocType
  let metadata ← fieldWithDefault kvs "metadata" {} decodeMetadata
  let additional_metadata ← fieldWithDefault kvs "additional_metadata" .nil decodeObj
  let reprocess ← fieldWithDefault kvs "reprocess" false decodeBool
  return { identifier := identifier, connector_type := connector_type,
           source_identifiers := source_identifiers, doc_type := doc_type,
           metadata := metadata, additional_metadata := additional_metadata,
           reprocess := reprocess }

/-- Outcome of opening and `json.load`-ing a persisted FileData file:
the path check can fail, the JSON parse can fail, or a parsed document
comes back. -/
inductive ReadFileResult where
  | missing
  | malformed
  | content (j : Json)

/-- Embedding of `FileData.from_file`: an invalid path raises
`ValueError("file path not valid: ...")`; `json.load` on malformed input
raises `json.JSONDecodeError`; a parsed top-level value that is not an
object makes `_decode_dataclass` fail on `kvs.items()` (modelled as the
generic type error); otherwise `FileData.from_dict` runs. -/
def FileData.from_file : ReadFileResult → Except PyErr FileData
  | .missing => .error (.valueError "file path not valid")
  | .malformed => .error .jsonDecodeError
  | .content (.obj kvs) => FileData.from_dict kvs
  | .content _ => .error (.typeError "dict expected")

theorem decodeOptStr_encode (o : Option String) :
    decodeOptStr (encodeOptStr o) = .ok o := by
  cases o <;> rfl

theorem decodeOptInt_encode (o : Option Int) :
    decodeOptInt (encodeOptInt o) = .ok o := by
  cases o <;> rfl

theorem decodeOptObj_encode (o : Option JsonKVs) :
    decodeOptObj (encodeOptObj o) = .ok o := by
  cases o <;> rfl

theorem decodeOptArr_encode (o : Option Jsons) :
    decodeOptArr (encodeOptArr o) = .ok o := by
  cases o <;> rfl

theorem decodeDocType_toStr (d : DocType) :
    decodeDocType (.str d.toStr) = .ok d := by
  cases d <;> rfl

theorem sourceIdentifiers_round_trip (si : SourceIdentifiers) :
    SourceIdentifiers.from_dict si.to_dict = .ok si := by
  obtain ⟨fn, fp, rp⟩ := si
  simp [SourceIdentifiers.to_dict, SourceIdentifiers.from_dict, requiredField,
    fieldWithDefault, JsonKVs.lookup, decodeStr, decodeOptStr_encode]
  rfl

theorem metadata_round_trip (m : FileDataSourceMetadata) :
    FileDataSourceMetadata.from_dict m.to_dict = .ok m := by
  obtain ⟨u, v, rl, dc, dm, dp, pd, fb⟩ := m
  simp [FileDataSourceMetadata.to_dict, FileDataSourceMetadata.from_dict,
    fieldWithDefault, JsonKVs.lookup, decodeOptStr_encode, decodeOptInt_encode,
    decodeOptObj_encode, decodeOptArr_encode]
  rfl

theorem decodeOptSourceIdentifiers_encode (o : Option SourceIdentifiers) :
    decodeOptSourceIdentifiers (encodeOptSourceIdentifiers o) = .ok o := by
  cases o with
  | none => rfl
  | some si =>
      simp [encodeOptSourceIdentifiers, decodeOptSourceIdentifiers,
        sourceIdentifiers_round_trip si, Except.map]

/-- C1. Serializing a `FileData` to its JSON dictionary and parsing the
dictionary back yields the original value: for every `FileData` `x`,
`FileData.from_dict (FileData.to_dict x) = Except.ok x`, covering the nested
optional `source_identifiers`, the `doc_type` tag, the metadata record with
`filesize_bytes`, the `additional_metadata` mapping and the `reprocess`
flag. -/
theorem fileData_round_trip (x : FileData) :
    FileData.from_dict (FileData.to_dict x) = .ok x := by
  obtain ⟨ident, ct, si, dt, md, am, rp⟩ := x
  simp [FileData.to_dict, FileData.from_dict, requiredField, fieldWithDefault,
    JsonKVs.lookup, decodeStr, decodeOptSourceIdentifiers_encode,
    decodeDocType_toStr, decodeMetadata, metadata_round_trip, decodeObj,
    decodeBool]
  rfl

theorem except_bind_ok {α β ε : Type} (a : α) (f : α → Except ε β) :
    (Except.ok a : Except ε α) >>= f = f a := rfl

theorem except_bind_error {α β ε : Type} (e : ε) (f : α → Except ε β) :
    (Except.error e : Except ε α) >>= f = Except.error e := rfl

theorem except_map_error {α β ε : Type} (e : ε) (f : α → β) :
    f <$> (Except.error e : Except ε α) = Except.error e := rfl

/-! ## FileData.from_file strictness (C8) -/

/-- C8 (amended). Loading a persisted FileData file raises `ValueError` when
the path is invalid and when the JSON is malformed (`json.JSONDecodeError`
subclasses `ValueError`); a well-formed JSON object missing a required key
raises `KeyError` — `identifier` first, then `connector_type` — and never
silently substitutes a default for a missing required key. -/
theorem fileData_from_file_strict (kvs kvs2 : JsonKVs) (s : String)
    (h1 : kvs.lookup "identifier" = none)
    (h2 : kvs2.lookup "identifier" = some (.str s))
    (h3 : kvs2.lookup "connector_type" = none) :
    FileData.from_file .missing = .error (.valueError "file path not valid")
    ∧ (PyErr.valueError "file path not valid").isValueError = true
    ∧ FileData.from_file .malformed = .error .jsonDecodeError
    ∧ PyErr.jsonDecodeError.isValueError = true
    ∧ FileData.from_file (.content (.obj kvs)) = .error (.keyError "identifier")
    ∧ FileData.from_file (.content (.obj kvs2)) = .error (.keyError "connector_type") := by
  refine ⟨rfl, rfl, rfl, rfl, ?_, ?_⟩
  · simp [FileData.from_file, FileData.from_dict, requiredField, h1, except_bind_error,
      except_map_error]
  · simp [FileData.from_file, FileData.from_dict, requiredField, h2, h3, decodeStr,
      except_bind_ok, except_bind_error, except_map_error]

theorem fileData_from_file_strict_witness :
    (JsonKVs.nil.lookup "identifier" = none
      ∧ (JsonKVs.cons "identifier" (.str "i") .nil).lookup "identifier" = some (.str "i")
      ∧ (JsonKVs.cons "identifier" (.str "i") .nil).lookup "connector_type" = none)
    ∧ (FileData.from_file .missing = .error (.valueError "file path not valid")
       ∧ (PyErr.valueError "file path not valid").isValueError = true
       ∧ FileData.from_file .malformed = .error .jsonDecodeError
       ∧ PyErr.jsonDecodeError.isValueError = true
       ∧ FileData.from_file (.content (.obj .nil)) = .error (.keyError "identifier")
       ∧ FileData.from_file
           (.content (.obj (.cons "identifier" (.str "i") .nil)))
           = .error (.keyError "connector_type")) :=
  ⟨⟨rfl, rfl, rfl⟩,
    fileData_from_file_strict .nil (.cons "identifier" (.str "i") .nil) "i" rfl rfl rfl⟩

/-- C8, the claim as frozen: a JSON object missing the required key
`identifier` makes `FileData.from_file` raise `KeyError`, which is not a
`ValueError`, so "missing required keys is a hard ValueError" fails on the
empty JSON object. -/
theorem fileData_from_file_missing_key_not_valueError :
    FileData.from_file (.content (.obj .nil)) = .error (.keyError "identifier")
    ∧ (PyErr.keyError "identifier").isValueError = false :=
  ⟨rfl, rfl⟩

/-! ## Connectivity prechecks (C2)

`check_connection` of the two source connectors under src/. The underlying
probe (`self.client.admin.command("ping")` on MongoDB, the `self.client`
construction on Outlook) is passed in as its outcome. -/

inductive ProbeResult where
  | ok
  | raises (msg : String)
  deriving DecidableEq, Repr

/-- Embedding of `MongoDBSourceConnector.check_connection`
(src/unstructured_ingest/connector/mongodb.py lines 196-201): any failure of
the ping probe is logged and re-raised as `DestinationConnectionError` —
although this is the source-side connector. -/
def MongoDBSourceConnector.check_connection : ProbeResult → Except PyErr Unit
  | .ok => .ok ()
  | .raises e =>
      .error (.destinationConnectionError ("failed to validate connection: " ++ e))

/-- Embedding of `OutlookSourceConnector.check_connection`
(src/unstructured_ingest/connector/outlook.py lines 206-211): any failure of
the client construction is re-raised as `SourceConnectionError`. -/
def OutlookSourceConnector.check_connection : ProbeResult → Except PyErr Unit
  | .ok => .ok ()
  | .raises e =>
      .error (.sourceConnectionError ("failed to validate connection: " ++ e))

/-- C2. On a failing probe, `OutlookSourceConnector.check_connection` raises
`SourceConnectionError` as the spec requires, but
`MongoDBSourceConnector.check_connection` raises
`DestinationConnectionError` — a source-side connector raising the
destination-side error class; both raise nothing when the probe succeeds. -/
theorem mongodb_source_check_connection_error_class :
    MongoDBSourceConnector.check_connection (.raises "ping failed")
      = .error (.destinationConnectionError "failed to validate connection: ping failed")
    ∧ (PyErr.destinationConnectionError
        "failed to validate connection: ping failed").isSourceConnectionError = false
    ∧ MongoDBSourceConnector.check_connection .ok = .ok ()
    ∧ OutlookSourceConnector.check_connection (.raises "no token")
      = .error (.sourceConnectionError "failed to validate connection: no token")
    ∧ (PyErr.sourceConnectionError
        "failed to validate connection: no token").isSourceConnectionError = true
    ∧ OutlookSourceConnector.check_connection .ok = .ok () :=
  ⟨rfl, rfl, rfl, rfl, rfl, rfl⟩

/-! ## MongoDB connector serialization (C9) and batch ids (C10) -/

structure MongoClient where
  handle : Nat
  deriving DecidableEq, Repr

structure MongoDBAccessConfig where
  uri : Option String := none
  deriving DecidableEq, Repr

structure SimpleMongoDBConfig where
  access_config : MongoDBAccessConfig
  host : Option String := none
  database : Option String := none
  collection : Option String := none
  port : Int := 27017
  batch_size : Nat := 100
  deriving DecidableEq, Repr

/-- Serialization of `SimpleMongoDBConfig`. Modelled from the spec: the
`enhanced_dataclass` serializer (not under src/) writes every configuration
field and redacts sensitive access-config values (`uri` is declared
`sensitive=True`). -/
def SimpleMongoDBConfig.to_dict (c : SimpleMongoDBConfig) : JsonKVs :=
  .cons "access_config"
      (.obj (.cons "uri" (match c.access_config.uri with
        | none => .null
        | some _ => .str "*******") .nil))
    (.cons "host" (encodeOptStr c.host)
      (.cons "database" (encodeOptStr c.database)
        (.cons "collection" (encodeOptStr c.collection)
          (.cons "port" (.num c.port)
            (.cons "batch_size" (.num (Int.ofNat c.batch_size)) .nil)))))

/-- Serialization of the memoized `_client` dataclass field. Modelled from
the spec: "the handle is excluded from any serialization of the connector
(serializing a connector must null out its live-connection state and
require explicit reconnection after deserialization)", so the serialized
`_client` position is `null` whatever the live state. The destination
override's own docstring (mongodb.py lines 244-248) confirms that a live
client is never emitted - it cannot even be copied (`TypeError`). -/
def encodeClient (_ : Option MongoClient) : Json :=
  .null

structure MongoDBSourceConnector where
  connector_config : SimpleMongoDBConfig
  _client : Option MongoClient := none
  deriving DecidableEq, Repr

structure MongoDBDestinationConnector where
  connector_config : SimpleMongoDBConfig
  _client : Option MongoClient := none
  deriving DecidableEq, Repr

/-- Serialization of `MongoDBSourceConnector`. The source connector defines
no `to_dict` of its own, so the base serializer of `enhanced_dataclass`
(not under src/) applies. Modelled from the spec: serialization always
nulls the live-connection state and leaves the instance itself - returned
here as the second component - untouched. -/
def MongoDBSourceConnector.to_dict (self : MongoDBSourceConnector) :
    JsonKVs × MongoDBSourceConnector :=
  (.cons "connector_config" (.obj self.connector_config.to_dict)
    (.cons "_client" (encodeClient self._client) .nil), self)

/-- Embedding of `MongoDBDestinationConnector.to_dict`
(src/unstructured_ingest/connector/mongodb.py lines 243-253): a shallow copy
of `self` gets its `_client` set to `None` and is handed to `_asdict`; the
result is the serialized dictionary, and `self` itself — returned here as
the second component — is left untouched. -/
def MongoDBDestinationConnector.to_dict (self : MongoDBDestinationConnector) :
    JsonKVs × MongoDBDestinationConnector :=
  let self_cp : MongoDBDestinationConnector := { self with _client := none }
  (.cons "connector_config" (.obj self_cp.connector_config.to_dict)
    (.cons "_client" (encodeClient self_cp._client) .nil), self)

/-- C9. Serializing either MongoDB connector yields a dictionary whose
memoized `_client` position is `null` in every state - live client present
or not - and leaves the instance's own live client field unchanged: the
destination connector nulls `_client` on a shallow copy before serializing
(mongodb.py lines 243-253), and the source connector's default
serialization, modelled from the spec, excludes the handle likewise. -/
theorem mongodb_to_dict_client_null (d : MongoDBDestinationConnector)
    (s : MongoDBSourceConnector) :
    (d.to_dict.1.lookup "_client" = some .null
     ∧ d.to_dict.2 = d
     ∧ d.to_dict.2._client = d._client)
    ∧ (s.to_dict.1.lookup "_client" = some .null
       ∧ s.to_dict.2 = s
       ∧ s.to_dict.2._client = s._client) :=
  ⟨⟨rfl, rfl, rfl⟩, ⟨rfl, rfl, rfl⟩⟩

structure MongoDBIngestDocBatch where
  connector_config : SimpleMongoDBConfig
  list_of_ids : List String := []

/-- Embedding of `MongoDBIngestDocBatch.unique_id`
(src/unstructured_ingest/connector/mongodb.py lines 139-141):
`",".join(sorted(self.list_of_ids))`. -/
def MongoDBIngestDocBatch.unique_id (b : MongoDBIngestDocBatch) : String :=
  String.intercalate "," (b.list_of_ids.insertionSort (· ≤ ·))

/-- C10. `unique_id` is the comma-join of the sorted id list, and any two
batches whose `list_of_ids` are permutations of each other get the same
`unique_id`: the id is invariant under reordering of the id list. -/
theorem mongodb_batch_unique_id_perm_invariant (b1 b2 : MongoDBIngestDocBatch)
    (h : b1.list_of_ids.Perm b2.list_of_ids) :
    b1.unique_id = String.intercalate "," (b1.list_of_ids.insertionSort (· ≤ ·))
    ∧ b1.unique_id = b2.unique_id := by
  refine ⟨rfl, ?_⟩
  unfold MongoDBIngestDocBatch.unique_id
  congr 1
  have hs1 : List.Sorted (· ≤ ·) (b1.list_of_ids.insertionSort (· ≤ ·)) :=
    List.sorted_insertionSort (· ≤ ·) b1.list_of_ids
  have hs2 : List.Sorted (· ≤ ·) (b2.list_of_ids.insertionSort (· ≤ ·)) :=
    List.sorted_insertionSort (· ≤ ·) b2.list_of_ids
  have hp : (b1.list_of_ids.insertionSort (· ≤ ·)).Perm
      (b2.list_of_ids.insertionSort (· ≤ ·)) :=
    ((b1.list_of_ids.perm_insertionSort (· ≤ ·)).trans h).trans
      (b2.list_of_ids.perm_insertionSort (· ≤ ·)).symm
  exact List.eq_of_perm_of_sorted hp hs1 hs2

theorem mongodb_batch_unique_id_perm_invariant_witness :
    (["b", "a", "c"].Perm ["c", "b", "a"])
    ∧ ((MongoDBIngestDocBatch.mk { access_config := {} } ["b", "a", "c"]).unique_id
        = String.intercalate ","
            ((["b", "a", "c"] : List String).insertionSort (· ≤ ·))
       ∧ (MongoDBIngestDocBatch.mk { access_config := {} } ["b", "a", "c"]).unique_id
        = (MongoDBIngestDocBatch.mk { access_config := {} } ["c", "b", "a"]).unique_id) :=
  ⟨by decide, mongodb_batch_unique_id_perm_invariant
    (MongoDBIngestDocBatch.mk { access_config := {} } ["b", "a", "c"])
    (MongoDBIngestDocBatch.mk { access_config := {} } ["c", "b", "a"]) (by decide)⟩

/-! ## Uploader batching (C3)

`ChromaUploader.run` (src/unstructured_ingest/v2/processes/connectors/chroma.py
lines 180-197) collects the records of every staged file and issues one
`upsert_batch` destination write per chunk of `batch_generator`. -/

/-- Helper carrying the recursion of `batch_generator` on explicit fuel, so
that every application reduces inside the kernel; with `batch_size ≥ 1` the
list shrinks by at least one element per step, so fuel `xs.length` is always
enough. -/
def batch_generator_go {α : Type} (bs : Nat) : Nat → List α → List (List α)
  | _, [] => []
  | 0, _ :: _ => []
  | fuel + 1, x :: xs =>
      List.take bs (x :: xs) :: batch_generator_go bs fuel (List.drop bs (x :: xs))

/-- Modelled from the spec: `batch_generator` of
`unstructured_ingest.utils.data_prep` (not under src/) turns the record list
into successive chunks of at most `batch_size` records, in order, the last
chunk holding the remainder. -/
def batch_generator {α : Type} (xs : List α) (bs : Nat) : List (List α) :=
  if bs = 0 then [] else batch_generator_go bs xs.length xs

theorem batch_generator_go_fuel {α : Type} (bs : Nat) (hbs : 0 < bs) :
    ∀ (fuel fuel' : Nat) (xs : List α), xs.length ≤ fuel → xs.length ≤ fuel' →
      batch_generator_go bs fuel xs = batch_generator_go bs fuel' xs := by
  intro fuel
  induction fuel with
  | zero =>
      intro fuel' xs h _
      have hx : xs = [] := List.eq_nil_of_length_eq_zero (Nat.le_zero.mp h)
      subst hx
      cases fuel' <;> rfl
  | succ f ih =>
      intro fuel' xs h h'
      match xs with
      | [] => cases fuel' <;> rfl
      | x :: xs' =>
          match fuel' with
          | 0 => exact absurd h' (by simp)
          | f' + 1 =>
              have hlen : (List.drop bs (x :: xs')).length = (x :: xs').length - bs := by
                simp
              have h1 : (List.drop bs (x :: xs')).length ≤ f := by
                rw [hlen]; simp at h ⊢; omega
              have h2 : (List.drop bs (x :: xs')).length ≤ f' := by
                rw [hlen]; simp at h' ⊢; omega
              simp only [batch_generator_go]
              rw [ih f' (List.drop bs (x :: xs')) h1 h2]

theorem batch_generator_nil {α : Type} (bs : Nat) :
    batch_generator ([] : List α) bs = [] := by
  unfold batch_generator
  split <;> rfl

theorem batch_generator_cons {α : Type} (bs : Nat) (hbs : 0 < bs) (x : α)
    (xs : List α) :
    batch_generator (x :: xs) bs
      = List.take bs (x :: xs) :: batch_generator (List.drop bs (x :: xs)) bs := by
  unfold batch_generator
  rw [if_neg (Nat.pos_iff_ne_zero.mp hbs), if_neg (Nat.pos_iff_ne_zero.mp hbs)]
  show batch_generator_go bs (xs.length + 1) (x :: xs) = _
  simp only [batch_generator_go]
  congr 1
  refine batch_generator_go_fuel bs hbs _ _ _ ?_ ?_
  · simp
    omega
  · simp

theorem batch_generator_length_aux {α : Type} (bs : Nat) (hbs : 0 < bs) :
    ∀ (n : Nat) (xs : List α), xs.length ≤ n →
      (batch_generator xs bs).length = (xs.length + bs - 1) / bs := by
  intro n
  induction n with
  | zero =>
      intro xs h
      have hx : xs = [] := List.eq_nil_of_length_eq_zero (Nat.le_zero.mp h)
      subst hx
      rw [batch_generator_nil]
      simp [Nat.div_eq_of_lt, Nat.sub_lt hbs]
  | succ n ih =>
      intro xs h
      match xs with
      | [] =>
          rw [batch_generator_nil]
          simp [Nat.div_eq_of_lt, Nat.sub_lt hbs]
      | x :: xs' =>
          rw [batch_generator_cons bs hbs]
          have hdrop : (List.drop bs (x :: xs')).length ≤ n := by
            simp at h ⊢; omega
          rw [List.length_cons, ih _ hdrop]
          rw [List.length_drop]
          have hL : 1 ≤ (x :: xs').length := by simp
          generalize (x :: xs').length = L at hL ⊢
          have hR : L + bs - 1 = (L - 1) + bs := by omega
          rw [hR, Nat.add_div_right _ hbs]
          by_cases hcase : bs ≤ L
          · have h1 : L - bs + bs - 1 = L - 1 := by omega
            rw [h1]
          · have h1 : L - bs + bs - 1 = bs - 1 := by omega
            rw [h1, Nat.div_eq_of_lt (by omega), Nat.div_eq_of_lt (by omega)]

theorem batch_generator_sizes_aux {α : Type} (bs : Nat) (hbs : 0 < bs) :
    ∀ (n : Nat) (xs : List α), xs.length ≤ n →
      ∀ c ∈ batch_generator xs bs, c.length ≤ bs := by
  intro n
  induction n with
  | zero =>
      intro xs h c hc
      have hx : xs = [] := List.eq_nil_of_length_eq_zero (Nat.le_zero.mp h)
      subst hx
      rw [batch_generator_nil] at hc
      exact absurd hc (List.not_mem_nil c)
  | succ n ih =>
      intro xs h c hc
      match xs with
      | [] =>
          rw [batch_generator_nil] at hc
          exact absurd hc (List.not_mem_nil c)
      | x :: xs' =>
          rw [batch_generator_cons bs hbs] at hc
          rcases List.mem_cons.mp hc with hc | hc
          · subst hc
            simpa using Nat.min_le_left bs (x :: xs').length
          · have hdrop : (List.drop bs (x :: xs')).length ≤ n := by
              simp at h ⊢; omega
            exact ih _ hdrop c hc

theorem batch_generator_last_aux {α : Type} (bs : Nat) (hbs : 0 < bs) :
    ∀ (n : Nat) (xs : List α), xs.length ≤ n → xs.length % bs ≠ 0 →
      ((batch_generator xs bs).map List.length).getLast? = some (xs.length % bs) := by
  intro n
  induction n with
  | zero =>
      intro xs h hmod
      have hx : xs = [] := List.eq_nil_of_length_eq_zero (Nat.le_zero.mp h)
      subst hx
      simp at hmod
  | succ n ih =>
      intro xs h hmod
      match xs with
      | [] => simp at hmod
      | x :: xs' =>
          rw [batch_generator_cons bs hbs]
          by_cases hcase : (x :: xs').length ≤ bs
          · have hdrop : List.drop bs (x :: xs') = [] := by
              apply List.drop_eq_nil_of_le
              exact hcase
            rw [hdrop, batch_generator_nil]
            have hlt : (x :: xs').length < bs := by
              rcases Nat.lt_or_ge (x :: xs').length bs with hlt | hge
              · exact hlt
              · have : (x :: xs').length = bs := Nat.le_antisymm hcase hge
                rw [this, Nat.mod_self] at hmod
                exact absurd rfl hmod
            have hmin : min bs (x :: xs').length = (x :: xs').length :=
              Nat.min_eq_right (Nat.le_of_lt hlt)
            simp only [List.map_cons, List.map_nil, List.length_take,
              List.getLast?_singleton, hmin, Nat.mod_eq_of_lt hlt]
          · have hgt : bs < (x :: xs').length := Nat.lt_of_not_le hcase
            have hdropne : List.drop bs (x :: xs') ≠ [] := by
              intro hnil
              have := List.drop_eq_nil_iff.mp hnil
              omega
            match hdropeq : List.drop bs (x :: xs') with
            | [] => exact absurd hdropeq hdropne
            | y :: ys =>
                rw [batch_generator_cons bs hbs]
                have hmodsub : ((y :: ys).length) % bs = (x :: xs').length % bs := by
                  have : (y :: ys).length = (x :: xs').length - bs := by
                    rw [← hdropeq]; simp
                  rw [this, ← Nat.mod_eq_sub_mod (Nat.le_of_lt hgt)]
                have hrec := ih (List.drop bs (x :: xs'))
                  (by simp at h ⊢; omega)
                  (by rw [hdropeq, hmodsub]; exact hmod)
                rw [hdropeq, batch_generator_cons bs hbs] at hrec
                simp only [List.map_cons] at hrec ⊢
                rw [List.getLast?_cons_cons]
                rw [hrec, hmodsub]

structure ChromaDict where
  ids : List Json
  documents : List Json
  embeddings : List Json
  metadatas : List Json

/-- Embedding of `ChromaUploader.prepare_chroma_list`: a chunk of conformed
element dictionaries becomes the four parallel lists Chroma expects; a
missing key contributes Python `None`. All four lists have the chunk's
length, which the source asserts. -/
def ChromaUploader.prepare_chroma_list (chunk : List JsonKVs) : ChromaDict :=
  { ids := chunk.map (fun x => (x.lookup "id").getD .null),
    documents := chunk.map (fun x => (x.lookup "document").getD .null),
    embeddings := chunk.map (fun x => (x.lookup "embedding").getD .null),
    metadatas := chunk.map (fun x => (x.lookup "metadata").getD .null) }

/-- Embedding of `ChromaUploader.run` (chroma.py lines 180-197): `contents`
holds the JSON arrays loaded from the staged files, `elements_dict` is their
concatenation, and the result is the sequence of `upsert_batch` destination
write calls issued, one per chunk of `batch_generator`. -/
def ChromaUploader.run (batch_size : Nat) (contents : List (List JsonKVs)) :
    List ChromaDict :=
  (batch_generator contents.flatten batch_size).map ChromaUploader.prepare_chroma_list

theorem prepare_chroma_list_size (chunk : List JsonKVs) :
    (ChromaUploader.prepare_chroma_list chunk).ids.length = chunk.length := by
  simp [ChromaUploader.prepare_chroma_list]

/-- C3. With configured batch size `b > 0` and `n` collected records,
`ChromaUploader.run` issues exactly `ceil(n / b) = (n + b - 1) / b`
destination write calls, each carrying at most `b` records, and the last
call carries `n % b` records whenever `n % b` is nonzero. -/
theorem chroma_uploader_batching (b : Nat) (hb : 0 < b)
    (contents : List (List JsonKVs)) :
    ((ChromaUploader.run b contents).length = (contents.flatten.length + b - 1) / b)
    ∧ (∀ c ∈ ChromaUploader.run b contents, c.ids.length ≤ b)
    ∧ (contents.flatten.length % b ≠ 0 →
        ((ChromaUploader.run b contents).map (fun c => c.ids.length)).getLast?
          = some (contents.flatten.length % b)) := by
  refine ⟨?_, ?_, ?_⟩
  · unfold ChromaUploader.run
    rw [List.length_map]
    exact batch_generator_length_aux b hb _ contents.flatten le_rfl
  · intro c hc
    unfold ChromaUploader.run at hc
    rcases List.mem_map.mp hc with ⟨chunk, hchunk, hceq⟩
    rw [← hceq, prepare_chroma_list_size]
    exact batch_generator_sizes_aux b hb _ contents.flatten le_rfl chunk hchunk
  · intro hmod
    unfold ChromaUploader.run
    rw [List.map_map]
    have heq : ((fun c => c.ids.length) ∘ ChromaUploader.prepare_chroma_list)
        = (List.length : List JsonKVs → Nat) := by
      funext chunk
      exact prepare_chroma_list_size chunk
    rw [heq]
    exact batch_generator_last_aux b hb _ contents.flatten le_rfl hmod

set_option maxRecDepth 20000 in
theorem chroma_uploader_batching_witness :
    0 < 100
    ∧ ((ChromaUploader.run 100 [List.replicate 250 JsonKVs.nil]).length = 3
       ∧ ((ChromaUploader.run 100 [List.replicate 250 JsonKVs.nil]).map
            (fun c => c.ids.length)) = [100, 100, 50]) := by
  have h := chroma_uploader_batching 100 (by norm_num) [List.replicate 250 JsonKVs.nil]
  refine ⟨by norm_num, ?_, by decide⟩
  have h1 := h.1
  simp only [List.flatten_cons, List.flatten_nil, List.append_nil,
    List.length_replicate] at h1
  norm_num at h1
  exact h1

/-! ## Downloaders (C4, C5)

The v1 download stage: `OutlookIngestDoc.get_file` (outlook.py lines
158-186) and `MongoDBIngestDoc.get_file` (mongodb.py lines 117-121), plus
the skip-if-exists wrapper both carry. States count the network calls the
operations perform and track the file at the unit's deterministic download
path. -/

/-- The v1 `SourceMetadata` of `unstructured_ingest.interfaces` as the two
connectors populate it. The Python field `exists` is a Lean keyword, hence
`doc_exists`. -/
structure SourceMetadataModel where
  date_created : Option String := none
  date_modified : Option String := none
  version : Option String := none
  source_url : Option String := none
  doc_exists : Bool
  deriving DecidableEq, Repr

/-- A message as the Graph API returns it; `none` in the operations below
stands for a 404 (the message does not exist at the source). -/
structure OutlookMessage where
  created : String
  modified : String
  change_key : String
  web_link : String
  deriving DecidableEq, Repr

/-- The file at the unit's deterministic download path: absent, created
empty by `open(..., "wb")` but never filled because the download failed, or
fully downloaded. -/
inductive LocalFile where
  | absent
  | empty
  | downloaded
  deriving DecidableEq, Repr

/-- Whether a file - an empty one included - sits at the download path. -/
def LocalFile.on_disk : LocalFile → Bool
  | .absent => false
  | .empty => true
  | .downloaded => true

structure OutlookIngestDocState where
  local_file : LocalFile := .absent
  metadata_calls : Nat := 0
  download_calls : Nat := 0
  source_metadata : Option SourceMetadataModel := none
  deriving DecidableEq, Repr

/-- Embedding of `OutlookIngestDoc.update_source_metadata` (outlook.py lines
124-149): one Graph API metadata request; a 404 stores
`SourceMetadata(exists=False)` and returns, anything else stores the
populated metadata with `exists=True`. -/
def OutlookIngestDoc.update_source_metadata (message : Option OutlookMessage)
    (s : OutlookIngestDocState) : OutlookIngestDocState :=
  match message with
  | none =>
      { s with metadata_calls := s.metadata_calls + 1,
               source_metadata := some { doc_exists := false } }
  | some m =>
      { s with metadata_calls := s.metadata_calls + 1,
               source_metadata := some
                 { date_created := some m.created, date_modified := some m.modified,
                   version := some m.change_key, source_url := some m.web_link,
                   doc_exists := true } }

/-- Embedding of `OutlookIngestDoc._run_download` (outlook.py lines
151-156), under `SourceConnectionNetworkError.wrap`: one download network
call; it fills the already opened local file when the message exists and
raises `SourceConnectionNetworkError` (wrapping the
`ClientRequestException`) when it does not, leaving the file as it found
it. -/
def OutlookIngestDoc._run_download (message : Option OutlookMessage)
    (s : OutlookIngestDocState) : OutlookIngestDocState × Except PyErr Unit :=
  match message with
  | some _ =>
      ({ s with download_calls := s.download_calls + 1, local_file := .downloaded },
        .ok ())
  | none =>
      ({ s with download_calls := s.download_calls + 1 },
        .error (.sourceConnectionNetworkError "ClientRequestException"))

/-- Embedding of `OutlookIngestDoc.get_file` (outlook.py lines 158-186) with
its decorators. The skip-if-exists wrapper (`skip_if_file_exists`, modelled
from the spec because `unstructured_ingest.interfaces` is not under src/)
returns `None` without touching the network when re-download is off and a
file already sits at the download path - the spec says existence is
sufficient. The body never reads `source_metadata.exists`: it runs
`update_source_metadata`, then `open(download_path, "wb")` creates the
empty local file (outlook.py lines 170-176), then `_run_download` fills it;
the `try` around all of this catches every exception, logs it and returns,
so `get_file` returns `None` (`.ok ()`) on every path, the outer
`SourceConnectionError.wrap` never fires, and a failed download leaves the
zero-byte file behind. -/
def OutlookIngestDoc.get_file (re_download : Bool) (message : Option OutlookMessage)
    (s : OutlookIngestDocState) : OutlookIngestDocState × Except PyErr Unit :=
  if !re_download && s.local_file.on_disk then (s, .ok ())
  else
    let s1 := OutlookIngestDoc.update_source_metadata message s
    let s2 := { s1 with local_file := LocalFile.empty }
    ((OutlookIngestDoc._run_download message s2).1, .ok ())

structure MongoDBIngestDocState where
  file_on_disk : Bool := false
  network_calls : Nat := 0
  deriving DecidableEq, Repr

/-- Embedding of `MongoDBIngestDoc.get_file` (mongodb.py lines 117-121):
under `SourceConnectionError.wrap` and the skip-if-exists wrapper the body
is `pass` - the batch's `get_files` already materialized the document - so
no network call happens in any state and `None` is returned. -/
def MongoDBIngestDoc.get_file (re_download : Bool) (s : MongoDBIngestDocState) :
    MongoDBIngestDocState × Except PyErr Unit :=
  if !re_download && s.file_on_disk then (s, .ok ())
  else (s, .ok ())

/-- C4 (amended). On a unit whose source object does not exist,
`MongoDBIngestDoc.get_file` performs no network call and returns `None`, and
`OutlookIngestDoc.get_file` also returns the absent result `None` without
raising - but it does not short-circuit: it never consults
`source_metadata.exists`, performs the metadata probe and one download
attempt (whose failure the blanket `except` swallows), and leaves behind
the zero-byte file that `open(..., "wb")` created at the download path. -/
theorem get_file_exists_false_behavior (re_download : Bool)
    (s : OutlookIngestDocState) (ms : MongoDBIngestDocState)
    (hs : s.local_file = .absent) :
    ((OutlookIngestDoc.get_file re_download none s).2 = .ok ()
     ∧ (OutlookIngestDoc.get_file re_download none s).1.download_calls
         = s.download_calls + 1
     ∧ (OutlookIngestDoc.get_file re_download none s).1.metadata_calls
         = s.metadata_calls + 1
     ∧ (OutlookIngestDoc.get_file re_download none s).1.local_file = .empty
     ∧ (OutlookIngestDoc.get_file re_download none s).1.source_metadata
         = some { doc_exists := false })
    ∧ ((MongoDBIngestDoc.get_file re_download ms).2 = .ok ()
       ∧ (MongoDBIngestDoc.get_file re_download ms).1 = ms) := by
  constructor
  · simp [OutlookIngestDoc.get_file, OutlookIngestDoc.update_source_metadata,
      OutlookIngestDoc._run_download, LocalFile.on_disk, hs]
  · constructor
    · unfold MongoDBIngestDoc.get_file
      split <;> rfl
    · unfold MongoDBIngestDoc.get_file
      split <;> rfl

theorem get_file_exists_false_behavior_witness :
    ((OutlookIngestDocState.mk .absent 0 0
        (some { doc_exists := false })).local_file = .absent)
    ∧ (((OutlookIngestDoc.get_file true none
          (OutlookIngestDocState.mk .absent 0 0 (some { doc_exists := false }))).2
            = .ok ()
        ∧ (OutlookIngestDoc.get_file true none
            (OutlookIngestDocState.mk .absent 0 0
              (some { doc_exists := false }))).1.download_calls = 0 + 1
        ∧ (OutlookIngestDoc.get_file true none
            (OutlookIngestDocState.mk .absent 0 0
              (some { doc_exists := false }))).1.metadata_calls = 0 + 1
        ∧ (OutlookIngestDoc.get_file true none
            (OutlookIngestDocState.mk .absent 0 0
              (some { doc_exists := false }))).1.local_file = .empty
        ∧ (OutlookIngestDoc.get_file true none
            (OutlookIngestDocState.mk .absent 0 0
              (some { doc_exists := false }))).1.source_metadata
            = some { doc_exists := false })
       ∧ ((MongoDBIngestDoc.get_file true (MongoDBIngestDocState.mk false 0)).2 = .ok ()
          ∧ (MongoDBIngestDoc.get_file true (MongoDBIngestDocState.mk false 0)).1
              = MongoDBIngestDocState.mk false 0)) :=
  ⟨rfl, get_file_exists_false_behavior true
    (OutlookIngestDocState.mk .absent 0 0 (some { doc_exists := false }))
    (MongoDBIngestDocState.mk false 0) rfl⟩

/-- C4, the claim as frozen, refuted on the Outlook downloader: on a unit
whose source metadata already records `exists = false` (and whose message
the source indeed does not have), `get_file` still performs a download
network call - `download_calls` goes from 0 to 1 - instead of
short-circuiting with no network fetch. -/
theorem outlook_get_file_fetches_despite_exists_false :
    (OutlookIngestDoc.get_file true none
      (OutlookIngestDocState.mk .absent 0 0
        (some { doc_exists := false }))).1.download_calls = 1
    ∧ (1 : Nat) ≠ 0 :=
  ⟨rfl, one_ne_zero⟩

/-- C5 (amended). With skip-if-exists enabled (`re_download` off): an
invocation on a unit whose download path already holds a file is a pure
skip - state unchanged, hence no network call - and it returns `None`, not
the cached path; the fetch an Outlook unit pays on its first invocation
costs two network calls (the metadata probe and the download), so two
consecutive invocations on a fresh unit perform exactly two network calls
in total, while `MongoDBIngestDoc.get_file` performs zero network calls in
any state. -/
theorem downloader_network_call_totals (s t : OutlookIngestDocState)
    (m : OutlookMessage) (ms : MongoDBIngestDocState)
    (hs : s.local_file = .absent) (ht : t.local_file.on_disk = true) :
    (OutlookIngestDoc.get_file false (some m) t = (t, .ok ()))
    ∧ ((OutlookIngestDoc.get_file false (some m) s).1.local_file = .downloaded)
    ∧ (OutlookIngestDoc.get_file false (some m)
          (OutlookIngestDoc.get_file false (some m) s).1
        = ((OutlookIngestDoc.get_file false (some m) s).1, .ok ()))
    ∧ ((OutlookIngestDoc.get_file false (some m) s).1.metadata_calls
        = s.metadata_calls + 1)
    ∧ ((OutlookIngestDoc.get_file false (some m) s).1.download_calls
        = s.download_calls + 1)
    ∧ (MongoDBIngestDoc.get_file false ms = (ms, .ok ())) := by
  refine ⟨?_, ?_, ?_, ?_, ?_, ?_⟩
  · simp [OutlookIngestDoc.get_file, ht]
  · simp [OutlookIngestDoc.get_file, OutlookIngestDoc.update_source_metadata,
      OutlookIngestDoc._run_download, LocalFile.on_disk, hs]
  · set X := (OutlookIngestDoc.get_file false (some m) s).1 with hX
    have h2 : X.local_file = .downloaded := by
      rw [hX]
      simp [OutlookIngestDoc.get_file, OutlookIngestDoc.update_source_metadata,
        OutlookIngestDoc._run_download, LocalFile.on_disk, hs]
    simp [OutlookIngestDoc.get_file, h2, LocalFile.on_disk]
  · simp [OutlookIngestDoc.get_file, OutlookIngestDoc.update_source_metadata,
      OutlookIngestDoc._run_download, LocalFile.on_disk, hs]
  · simp [OutlookIngestDoc.get_file, OutlookIngestDoc.update_source_metadata,
      OutlookIngestDoc._run_download, LocalFile.on_disk, hs]
  · unfold MongoDBIngestDoc.get_file
    split <;> rfl

theorem downloader_network_call_totals_witness :
    ((OutlookIngestDocState.mk .absent 0 0 none).local_file = .absent
      ∧ (OutlookIngestDocState.mk .downloaded 1 1 none).local_file.on_disk = true)
    ∧ ((OutlookIngestDoc.get_file false (some (OutlookMessage.mk "c" "m" "k" "w"))
          (OutlookIngestDocState.mk .downloaded 1 1 none)
        = (OutlookIngestDocState.mk .downloaded 1 1 none, .ok ()))
       ∧ ((OutlookIngestDoc.get_file false (some (OutlookMessage.mk "c" "m" "k" "w"))
            (OutlookIngestDocState.mk .absent 0 0 none)).1.local_file = .downloaded)
       ∧ (OutlookIngestDoc.get_file false (some (OutlookMessage.mk "c" "m" "k" "w"))
            (OutlookIngestDoc.get_file false (some (OutlookMessage.mk "c" "m" "k" "w"))
              (OutlookIngestDocState.mk .absent 0 0 none)).1
          = ((OutlookIngestDoc.get_file false (some (OutlookMessage.mk "c" "m" "k" "w"))
              (OutlookIngestDocState.mk .absent 0 0 none)).1, .ok ()))
       ∧ ((OutlookIngestDoc.get_file false (some (OutlookMessage.mk "c" "m" "k" "w"))
            (OutlookIngestDocState.mk .absent 0 0 none)).1.metadata_calls = 0 + 1)
       ∧ ((OutlookIngestDoc.get_file false (some (OutlookMessage.mk "c" "m" "k" "w"))
            (OutlookIngestDocState.mk .absent 0 0 none)).1.download_calls = 0 + 1)
       ∧ (MongoDBIngestDoc.get_file false (MongoDBIngestDocState.mk false 0)
          = (MongoDBIngestDocState.mk false 0, .ok ()))) :=
  ⟨⟨rfl, rfl⟩, downloader_network_call_totals
    (OutlookIngestDocState.mk .absent 0 0 none)
    (OutlookIngestDocState.mk .downloaded 1 1 none)
    (OutlookMessage.mk "c" "m" "k" "w")
    (MongoDBIngestDocState.mk false 0) rfl rfl⟩

/-- C5, the claim as frozen, refuted on the cited downloaders: with skip
enabled, two consecutive `OutlookIngestDoc.get_file` invocations on a fresh
unit whose message exists perform two network calls in total - the single
fetch costs the metadata probe plus the download - not one; and two
consecutive `MongoDBIngestDoc.get_file` invocations perform zero. -/
theorem downloader_two_invocations_two_calls :
    ((OutlookIngestDoc.get_file false (some (OutlookMessage.mk "c" "m" "k" "w"))
        (OutlookIngestDoc.get_file false (some (OutlookMessage.mk "c" "m" "k" "w"))
          (OutlookIngestDocState.mk .absent 0 0 none)).1).1.metadata_calls
      + (OutlookIngestDoc.get_file false (some (OutlookMessage.mk "c" "m" "k" "w"))
          (OutlookIngestDoc.get_file false (some (OutlookMessage.mk "c" "m" "k" "w"))
            (OutlookIngestDocState.mk .absent 0 0 none)).1).1.download_calls = 2)
    ∧ (2 : Nat) ≠ 1
    ∧ ((MongoDBIngestDoc.get_file false
          (MongoDBIngestDoc.get_file false
            (MongoDBIngestDocState.mk false 0)).1).1.network_calls = 0)
    ∧ (0 : Nat) ≠ 1 :=
  ⟨rfl, by omega, rfl, by omega⟩

/-! ## UploadStager (C6, C7)

`ChromaUploadStager.conform_dict` and `ChromaUploadStager.run`
(src/unstructured_ingest/v2/processes/connectors/chroma.py lines 74-101).
The `str(uuid.uuid4())` draws are passed in as a supply `gen : Nat → String`,
element `i` of the loaded array drawing `gen i` (Python evaluates the
default argument of `data.get` on every call, whether or not it is used). -/

mutual

def flatten_value (sep : String) (key : String) : Json → JsonKVs
  | .null => .nil
  | .obj kvs => flatten_entries sep key kvs
  | .arr xs => flatten_list sep key 0 xs
  | v => .cons key v .nil

def flatten_entries (sep : String) (parent : String) : JsonKVs → JsonKVs
  | .nil => .nil
  | .cons k v tl =>
      (flatten_value sep (if parent = "" then k else parent ++ sep ++ k) v).append
        (flatten_entries sep parent tl)

def flatten_list (sep : String) (key : String) (i : Nat) : Jsons → JsonKVs
  | .nil => .nil
  | .cons hd tl =>
      (flatten_value sep (key ++ sep ++ toString i) hd).append
        (flatten_list sep key (i + 1) tl)

end

/-- Modelled from the spec: `flatten_dict` of
`unstructured_ingest.utils.data_prep` (not under src/) as Chroma invokes it
(`separator="-"`, `flatten_lists=True`, `remove_none=True`): nested
dictionaries flatten into separator-joined keys, list entries flatten with
their index appended to the key, and `None` values are dropped. -/
def flatten_dict (kvs : JsonKVs) (sep : String) : JsonKVs :=
  flatten_entries sep "" kvs

/-- Embedding of `ChromaUploadStager.conform_dict` (chroma.py lines 74-85).
`gen_uuid` is the `str(uuid.uuid4())` value this call draws; it becomes the
`id` only when the record has no `element_id`. `pop` removes `embeddings`
and `text` before the remainder — `element_id` included, since `get` does
not remove it — is flattened into `metadata`. -/
def ChromaUploadStager.conform_dict (gen_uuid : String) (data : JsonKVs) : JsonKVs :=
  let element_id := (data.lookup "element_id").getD (.str gen_uuid)
  .cons "id" element_id
    (.cons "embedding" ((data.lookup "embeddings").getD .null)
      (.cons "document" ((data.lookup "text").getD .null)
        (.cons "metadata"
          (.obj (flatten_dict ((data.remove "embeddings").remove "text") "-")) .nil)))

/-- The staging filesystem: JSON documents by path. -/
def FileSystem : Type := List (String × Json)

def FileSystem.read : FileSystem → String → Option Json
  | [], _ => none
  | (q, v) :: tl, p => if p = q then some v else FileSystem.read tl p

def FileSystem.write : FileSystem → String → Json → FileSystem
  | [], p, j => [(p, j)]
  | (q, v) :: tl, p, j =>
      if p = q then (p, j) :: tl else (q, v) :: FileSystem.write tl p j

/-- The list comprehension of `ChromaUploadStager.run`: element `i` is
conformed with the fresh identifier `gen i`; a non-dictionary element makes
`data.get` raise (`AttributeError`, grouped under the generic type error). -/
def conform_all (gen : Nat → String) : Nat → Jsons → Except PyErr Jsons
  | _, .nil => .ok .nil
  | i, .cons e tl =>
      match e with
      | .obj kvs => do
          let rest ← conform_all gen (i + 1) tl
          return .cons (.obj (ChromaUploadStager.conform_dict (gen i) kvs)) rest
      | _ => .error (.typeError "AttributeError")

/-- Embedding of `ChromaUploadStager.run` (chroma.py lines 87-101): load the
staged JSON array at `elements_filepath`, conform every element, write the
conformed array to `output_dir/output_filename.json` and return that path
with the updated filesystem. A missing elements file raises
`FileNotFoundError` (an `OSError`); a file that holds no JSON array fails
once the elements are iterated. -/
def ChromaUploadStager.run (gen : Nat → String) (elements_filepath : String)
    (output_dir : String) (output_filename : String) (fs : FileSystem) :
    Except PyErr (FileSystem × String) :=
  match fs.read elements_filepath with
  | none => .error (.osError "FileNotFoundError")
  | some (.arr elems) => do
      let conformed ← conform_all gen 0 elems
      let output_path := output_dir ++ "/" ++ output_filename ++ ".json"
      return (fs.write output_path (.arr conformed), output_path)
  | some _ => .error (.typeError "AttributeError")

/-- C7. A record missing `element_id` is not rejected: `conform_dict` still
produces the conformed record, its `id` filled with the freshly generated
identifier; a record that has `element_id` keeps that value as its `id`. -/
theorem conform_dict_id_handling (u : String) (kvs : JsonKVs) :
    ((kvs.lookup "element_id" = none →
        (ChromaUploadStager.conform_dict u kvs).lookup "id" = some (.str u))
     ∧ (∀ v, kvs.lookup "element_id" = some v →
        (ChromaUploadStager.conform_dict u kvs).lookup "id" = some v))
    ∧ ((ChromaUploadStager.conform_dict u kvs).lookup "embedding"
        = some ((kvs.lookup "embeddings").getD .null)
       ∧ (ChromaUploadStager.conform_dict u kvs).lookup "document"
        = some ((kvs.lookup "text").getD .null)
       ∧ (ChromaUploadStager.conform_dict u kvs).lookup "metadata"
        = some (.obj (flatten_dict ((kvs.remove "embeddings").remove "text") "-"))) := by
  refine ⟨⟨?_, ?_⟩, ?_, ?_, ?_⟩
  · intro h
    simp [ChromaUploadStager.conform_dict, JsonKVs.lookup, h]
  · intro v h
    simp [ChromaUploadStager.conform_dict, JsonKVs.lookup, h]
  · simp [ChromaUploadStager.conform_dict, JsonKVs.lookup]
  · simp [ChromaUploadStager.conform_dict, JsonKVs.lookup]
  · simp [ChromaUploadStager.conform_dict, JsonKVs.lookup]

/-- Every element of the loaded array is a dictionary carrying an
`element_id` key. -/
def all_have_element_id : Jsons → Bool
  | .nil => true
  | .cons (.obj kvs) tl => (kvs.lookup "element_id").isSome && all_have_element_id tl
  | .cons _ _ => false

theorem conform_dict_gen_irrelevant (u u' : String) (kvs : JsonKVs)
    (h : (kvs.lookup "element_id").isSome = true) :
    ChromaUploadStager.conform_dict u kvs = ChromaUploadStager.conform_dict u' kvs := by
  rcases Option.isSome_iff_exists.mp h with ⟨v, hv⟩
  simp [ChromaUploadStager.conform_dict, hv]

theorem conform_all_gen_irrelevant (gen1 gen2 : Nat → String) :
    ∀ (n i j : Nat) (elems : Jsons), elems.length ≤ n →
      all_have_element_id elems = true →
      conform_all gen1 i elems = conform_all gen2 j elems := by
  intro n
  induction n with
  | zero =>
      intro i j elems hn _
      match elems with
      | .nil => rfl
      | .cons e tl => exact absurd hn (by simp [Jsons.length])
  | succ n ih =>
      intro i j elems hn hall
      match elems with
      | .nil => rfl
      | .cons e tl =>
          match e with
          | .null | .bool _ | .num _ | .str _ | .arr _ =>
              simp [all_have_element_id] at hall
          | .obj kvs =>
              simp only [all_have_element_id, Bool.and_eq_true] at hall
              have htl : tl.length ≤ n := by
                simp only [Jsons.length] at hn
                omega
              simp only [conform_all]
              rw [ih (i + 1) (j + 1) tl htl hall.2,
                conform_dict_gen_irrelevant (gen1 i) (gen2 j) kvs hall.1]

theorem fileSystem_read_write_ne (fs : FileSystem) (p q : String) (j : Json)
    (h : p ≠ q) : (fs.write p j).read q = fs.read q := by
  induction fs with
  | nil =>
      simp only [FileSystem.write, FileSystem.read]
      rw [if_neg (fun hq => h hq.symm)]
  | cons kv tl ih =>
      obtain ⟨r, v⟩ := kv
      simp only [FileSystem.write]
      by_cases hpr : p = r
      · subst hpr
        simp only [FileSystem.read]
        rw [if_neg (fun hq => h hq.symm), if_neg (fun hq => h hq.symm)]
      · rw [if_neg hpr]
        simp only [FileSystem.read]
        by_cases hqr : q = r
        · rw [if_pos hqr, if_pos hqr]
        · rw [if_neg hqr, if_neg hqr, ih]

/-- C6 (amended). `ChromaUploadStager.run` does not modify the source
elements file as long as the output path `output_dir/output_filename.json`
differs from it, and it is deterministic — independent of the drawn
identifiers — whenever every element record carries an `element_id`;
records missing `element_id` receive freshly drawn identifiers, so on such
inputs two invocations produce different output files. -/
theorem chroma_stager_deterministic_when_ids_present (gen1 gen2 : Nat → String)
    (efp odir oname : String) (fs : FileSystem) (elems : Jsons)
    (hread : fs.read efp = some (.arr elems))
    (hall : all_have_element_id elems = true)
    (hpath : odir ++ "/" ++ oname ++ ".json" ≠ efp) :
    (ChromaUploadStager.run gen1 efp odir oname fs
      = ChromaUploadStager.run gen2 efp odir oname fs)
    ∧ (∀ fs1 p1, ChromaUploadStager.run gen1 efp odir oname fs = .ok (fs1, p1) →
        fs1.read efp = fs.read efp) := by
  constructor
  · simp only [ChromaUploadStager.run, hread]
    rw [conform_all_gen_irrelevant gen1 gen2 elems.length 0 0 elems le_rfl hall]
  · intro fs1 p1 hrun
    simp only [ChromaUploadStager.run, hread] at hrun
    rcases hcf : conform_all gen1 0 elems with e | conformed
    · rw [hcf] at hrun
      exact absurd hrun (by simp [except_bind_error])
    · rw [hcf] at hrun
      simp only [except_bind_ok] at hrun
      have hfs1 : fs1 = fs.write (odir ++ "/" ++ oname ++ ".json") (.arr conformed) := by
        cases hrun
        rfl
      rw [hfs1]
      exact fileSystem_read_write_ne fs _ efp (.arr conformed) hpath

theorem chroma_stager_deterministic_when_ids_present_witness :
    (FileSystem.read
        [("elements.json",
          .arr (.cons (.obj (.cons "element_id" (.str "e1") .nil)) .nil))]
        "elements.json"
        = some (.arr (.cons (.obj (.cons "element_id" (.str "e1") .nil)) .nil))
      ∧ all_have_element_id (.cons (.obj (.cons "element_id" (.str "e1") .nil)) .nil)
          = true
      ∧ "out" ++ "/" ++ "staged" ++ ".json" ≠ "elements.json")
    ∧ ((ChromaUploadStager.run (fun _ => "uuid-a") "elements.json" "out" "staged"
          [("elements.json",
            .arr (.cons (.obj (.cons "element_id" (.str "e1") .nil)) .nil))]
        = ChromaUploadStager.run (fun _ => "uuid-b") "elements.json" "out" "staged"
          [("elements.json",
            .arr (.cons (.obj (.cons "element_id" (.str "e1") .nil)) .nil))])
       ∧ (∀ fs1 p1, ChromaUploadStager.run (fun _ => "uuid-a") "elements.json" "out"
            "staged"
            [("elements.json",
              .arr (.cons (.obj (.cons "element_id" (.str "e1") .nil)) .nil))]
            = .ok (fs1, p1) →
          fs1.read "elements.json"
            = FileSystem.read
                [("elements.json",
                  .arr (.cons (.obj (.cons "element_id" (.str "e1") .nil)) .nil))]
                "elements.json")) :=
  ⟨⟨rfl, rfl, by simp⟩,
    chroma_stager_deterministic_when_ids_present (fun _ => "uuid-a") (fun _ => "uuid-b")
      "elements.json" "out" "staged"
      [("elements.json", .arr (.cons (.obj (.cons "element_id" (.str "e1") .nil)) .nil))]
      (.cons (.obj (.cons "element_id" (.str "e1") .nil)) .nil) rfl rfl (by simp)⟩

/-- The `id` value of the first record of the output file a stager run
wrote; `none` when the run failed or wrote something else. -/
def staged_first_id (r : Except PyErr (FileSystem × String)) : Option Json :=
  match r with
  | .ok (fs, path) =>
      match fs.read path with
      | some (.arr (.cons (.obj kvs) _)) => kvs.lookup "id"
      | _ => none
  | .error _ => none

/-- C6, the claim as frozen, refuted: on an elements file whose single
record has no `element_id`, two invocations of `ChromaUploadStager.run` that
draw different fresh identifiers — `uuid.uuid4()` is drawn anew on every
call — write different output files (`id` is `uuid-a` in one and `uuid-b`
in the other), so the output is not byte-identical across invocations on
identical input. -/
theorem chroma_stager_not_deterministic :
    staged_first_id (ChromaUploadStager.run (fun _ => "uuid-a") "elements.json" "out"
        "staged" [("elements.json", .arr (.cons (.obj .nil) .nil))])
      = some (.str "uuid-a")
    ∧ staged_first_id (ChromaUploadStager.run (fun _ => "uuid-b") "elements.json" "out"
        "staged" [("elements.json", .arr (.cons (.obj .nil) .nil))])
      = some (.str "uuid-b")
    ∧ Json.str "uuid-a" ≠ Json.str "uuid-b" :=
  ⟨rfl, rfl, by simp⟩
